import Mathlib

/-!
# Verification of `script.js` (portfolio website front-end)

A shallow embedding of the page script: the procedural curve generator
(`createAbstractSpiralPoints`), the scene assembler loop of `initSpiral`,
the pointer tracker (`onMouseMove`), the animation tick (`animate`), the
loader (`initLoader`), the menu toggle (`initMenuToggle`) and the theme
toggle (`initThemeToggle`).

Numbers are elements of an arbitrary field `α`; the host functions
`Math.sin`, `Math.cos`, `Math.pow` and the constant `Math.PI` are carried by a
record `JsMath α`.  Theorems about exact real arithmetic instantiate `α` with
`ℝ` and the record with `Real.sin`, `Real.cos`, `Real.rpow`, `Real.pi`.
-/

namespace Script

/-! ## Host numeric library -/

/-- The part of the JavaScript `Math` object used by the script. -/
structure JsMath (α : Type) where
  sin : α → α
  cos : α → α
  pow : α → α → α
  PI : α

/-- A `THREE.Vector3`: three coordinates. -/
structure Vector3 (α : Type) where
  x : α
  y : α
  z : α

/-! ## Curve generator (`createAbstractSpiralPoints`, lines 127-170) -/

section Curve

variable {α : Type} [Field α]

/-- The constant `baseRadius` (line 129). -/
def baseRadius : α := 0.3

/-- The constant `maxRadius` (line 130). -/
def maxRadius : α := 2.5

/-- The constant `height` (line 131). -/
def height : α := 6

/-- The constant `turns` (line 132). -/
def turns : α := 5

/-- The constant `segments` (line 133). -/
def segments : Nat := 500

/-- Line 140: `flowerOpen = Math.pow(t, 0.7)`. -/
def flowerOpen (M : JsMath α) (t : α) : α := M.pow t 0.7

/-- Line 141: `radiusExpansion = baseRadius + (maxRadius - baseRadius) * flowerOpen`. -/
def radiusExpansion (M : JsMath α) (t : α) : α :=
  baseRadius + (maxRadius - baseRadius) * flowerOpen M t

/-- The body of the `for` loop (lines 136-166) at step `i`: the point pushed. -/
def spiralPoint (M : JsMath α) (offset noiseOffset : α) (i : Nat) : Vector3 α :=
  let t : α := (i : α) / (segments : α)
  let angle := t * M.PI * 2 * turns
  let flowerOpen := flowerOpen M t
  let radiusExpansion := radiusExpansion M t
  let petalNoise := M.sin (angle * 2 + noiseOffset) * 0.15 * flowerOpen
  let petalWaviness := M.cos (angle * 3 + noiseOffset * 1.5) * 0.12 * flowerOpen
  let verticalNoise := M.sin (t * M.PI * 6 + noiseOffset) * 0.08 * (1 - flowerOpen)
  let petalVariation := M.sin (angle + noiseOffset * 0.5) * 0.2 * flowerOpen
  let r := (radiusExpansion + offset) * (1 + petalNoise + petalWaviness + petalVariation)
  let edgeDistortion := flowerOpen * 0.25
  let xDistortion := M.cos (angle * 2 + noiseOffset) * edgeDistortion
  let zDistortion := M.sin (angle * 2 + noiseOffset * 0.8) * edgeDistortion
  let verticalCurve := M.sin (t * M.PI) * 0.3 * flowerOpen
  let x := r * M.cos angle + xDistortion
  let y := (t - 0.5) * height + verticalNoise + verticalCurve
  let z := r * M.sin angle + zDistortion
  ⟨x, y, z⟩

/-- The loop `for (let i = ...; i <= segments; i++) points.push(...)` started
at counter `i` with the points accumulated so far. -/
def spiralLoop (M : JsMath α) (offset noiseOffset : α) (i : Nat)
    (points : List (Vector3 α)) : List (Vector3 α) :=
  if i ≤ segments then
    spiralLoop M offset noiseOffset (i + 1) (points ++ [spiralPoint M offset noiseOffset i])
  else
    points
termination_by segments + 1 - i
decreasing_by omega

/-- The function `createAbstractSpiralPoints(offset, noiseOffset)`. -/
def createAbstractSpiralPoints (M : JsMath α) (offset noiseOffset : α) :
    List (Vector3 α) :=
  spiralLoop M offset noiseOffset 0 []

end Curve

/-! ## Scene assembler (the strand loop of `initSpiral`, lines 91-107) -/

section Scene

variable {α : Type} [Field α]

/-- One iteration of the strand loop: `offset` and `noiseOffset` are the two
arguments of the call at line 94, `controlPoints` is what that call returns,
`opacity` is the value assigned at line 103. -/
structure Strand (α : Type) where
  offset : α
  noiseOffset : α
  controlPoints : List (Vector3 α)
  opacity : α

/-- Body of the strand loop at index `j` (lines 92-104). -/
def buildStrand (M : JsMath α) (j : Nat) : Strand α :=
  let offset : α := ((j : α) - 7) * 0.04
  let noiseOffset : α := (j : α) * 0.6
  let petalLayer : Nat := j % 3
  { offset := offset
    noiseOffset := noiseOffset
    controlPoints := createAbstractSpiralPoints M offset noiseOffset
    opacity := 0.5 - (petalLayer : α) * 0.08 }

/-- The loop `for (let j = ...; j < 15; j++) group.add(...)` started at counter
`j` with the children of the group accumulated so far. -/
def strandLoop (M : JsMath α) (j : Nat) (group : List (Strand α)) : List (Strand α) :=
  if j < 15 then
    strandLoop M (j + 1) (group ++ [buildStrand M j])
  else
    group
termination_by 15 - j
decreasing_by omega

/-- The children of the group built by `initSpiral` (loop entered at `j = 0`). -/
def initSpiralStrands (M : JsMath α) : List (Strand α) :=
  strandLoop M 0 []

end Scene

/-! ## Pointer tracker and animation loop (lines 45-47, 172-221) -/

section Animation

variable {α : Type} [Field α]

/-- The Euler angles `spiral.rotation`. -/
structure Rotation (α : Type) where
  x : α
  y : α
  z : α

/-- The module-level variables read and written by the pointer handlers and by
`animate`.  `spiral` is `none` while the global is still `undefined`;
`canRender` is the truth value of `renderer && scene && camera`;
`frameRequests` counts calls of `requestAnimationFrame` and `renders` counts
calls of `renderer.render`. -/
structure SpiralState (α : Type) where
  spiral : Option (Rotation α)
  mouseX : α
  mouseY : α
  targetRotationX : α
  targetRotationY : α
  canRender : Bool
  frameRequests : Nat
  renders : Nat

/-- The fields `window.innerWidth` and `window.innerHeight`. -/
structure Window (α : Type) where
  innerWidth : α
  innerHeight : α

/-- The fields `clientX` and `clientY` of a mouse event or of a touch. -/
structure PointerEvent (α : Type) where
  clientX : α
  clientY : α

/-- The handler `onMouseMove(event)` (lines 172-180). -/
def onMouseMove (w : Window α) (event : PointerEvent α) (s : SpiralState α) :
    SpiralState α :=
  let mouseX := (event.clientX / w.innerWidth) * 2 - 1
  let mouseY := (-(event.clientY / w.innerHeight)) * 2 + 1
  { s with
    mouseX := mouseX
    mouseY := mouseY
    targetRotationX := mouseY * 0.08
    targetRotationY := mouseX * 0.08 }

/-- The handler `onTouchMove(event)` (lines 183-194); `touches` is
`event.touches`. -/
def onTouchMove (w : Window α) (touches : List (PointerEvent α)) (s : SpiralState α) :
    SpiralState α :=
  match touches with
  | [] => s
  | touch :: _ =>
    let mouseX := (touch.clientX / w.innerWidth) * 2 - 1
    let mouseY := (-(touch.clientY / w.innerHeight)) * 2 + 1
    { s with
      mouseX := mouseX
      mouseY := mouseY
      targetRotationX := mouseY * 0.08
      targetRotationY := mouseX * 0.08 }

/-- Lines 208-216 of `animate`: the update of `spiral.rotation`. -/
def rotateSpiral (targetRotationX targetRotationY : α) (rotation : Rotation α) :
    Rotation α :=
  let r1 : Rotation α := { rotation with y := rotation.y + 0.003 }
  let lerpFactor : α := 0.05
  let r2 : Rotation α := { r1 with x := r1.x + (targetRotationX - r1.x) * lerpFactor }
  { r2 with z := r2.z + (targetRotationY - r2.z) * lerpFactor }

/-- One call of `animate()` (lines 205-221): request the next frame, update
the rotation when `spiral` is set, render when possible. -/
def animate (s : SpiralState α) : SpiralState α :=
  let s1 := { s with frameRequests := s.frameRequests + 1 }
  let s2 :=
    match s1.spiral with
    | some rotation =>
      { s1 with spiral := some (rotateSpiral s1.targetRotationX s1.targetRotationY rotation) }
    | none => s1
  if s2.canRender then { s2 with renders := s2.renders + 1 } else s2

end Animation

/-! ## Class lists -/

/-- The method `classList.add(c)`. -/
def classAdd (c : String) (classList : List String) : List String :=
  if c ∈ classList then classList else classList ++ [c]

/-- The method `classList.remove(c)`. -/
def classRemove (c : String) (classList : List String) : List String :=
  classList.filter (fun d => d ≠ c)

/-- The method `classList.toggle(c)`. -/
def classToggle (c : String) (classList : List String) : List String :=
  if c ∈ classList then classRemove c classList else classList ++ [c]

/-! ## Loader (`initLoader`, lines 2-42) -/

/-- What the script reads from `performance`: `navigationEntryType` is
`performance.getEntriesByType('navigation')[0]?.type` (`none` for `undefined`),
`legacyType` is `performance.navigation.type` (`none` when
`performance.navigation` is absent). -/
structure Performance where
  navigationEntryType : Option String
  legacyType : Option Nat

/-- The fallback operand of `||` at lines 8-12. -/
def legacyNavigationType (p : Performance) : String :=
  match p.legacyType with
  | some ty =>
    if ty = 0 then "navigate"
    else if ty = 1 then "reload"
    else if ty = 2 then "back_forward"
    else "navigate"
  | none => "navigate"

/-- The constant `navigationType` (lines 7-12); the empty string is falsy. -/
def navigationType (p : Performance) : String :=
  match p.navigationEntryType with
  | some ty => if ty ≠ "" then ty else legacyNavigationType p
  | none => legacyNavigationType p

/-- The two elements `initLoader` touches. -/
inductive LoaderElem where
  | loader
  | mainContent
  deriving DecidableEq, Repr

/-- The kind of a class-list call. -/
inductive ClassOp where
  | add
  | remove
  deriving DecidableEq, Repr

/-- A record of one class-list call: when, on which element, what. -/
structure ClassChange where
  time : Nat
  elem : LoaderElem
  op : ClassOp
  cls : String
  deriving DecidableEq, Repr

/-- The two arrow functions handed to `setTimeout`: the outer one (line 28)
and the inner one (line 32). -/
inductive Callback where
  | breakLoader
  | hideLoader
  deriving DecidableEq, Repr

/-- A pending timer: the absolute time (ms) at which it fires and its callback. -/
structure Timer where
  fireAt : Nat
  callback : Callback
  deriving DecidableEq, Repr

/-- The page state seen by the loader: clock (ms), the two class lists, the
pending timers and the record of class-list calls made so far. -/
structure LoaderState where
  now : Nat
  loaderClasses : List String
  mainClasses : List String
  timers : List Timer
  log : List ClassChange

/-- The state at the moment `DOMContentLoaded` fires: clock at zero, no
pending timer, nothing recorded. -/
def LoaderState.initial (loaderClasses mainClasses : List String) : LoaderState :=
  { now := 0, loaderClasses := loaderClasses, mainClasses := mainClasses,
    timers := [], log := [] }

/-- A call `loader.classList.add(c)`. -/
def loaderAdd (c : String) (s : LoaderState) : LoaderState :=
  { s with
    loaderClasses := classAdd c s.loaderClasses
    log := s.log ++ [⟨s.now, .loader, .add, c⟩] }

/-- A call `mainContent.classList.add(c)`. -/
def mainAdd (c : String) (s : LoaderState) : LoaderState :=
  { s with
    mainClasses := classAdd c s.mainClasses
    log := s.log ++ [⟨s.now, .mainContent, .add, c⟩] }

/-- A call `mainContent.classList.remove(c)`. -/
def mainRemove (c : String) (s : LoaderState) : LoaderState :=
  { s with
    mainClasses := classRemove c s.mainClasses
    log := s.log ++ [⟨s.now, .mainContent, .remove, c⟩] }

/-- A call `setTimeout(callback, delay)`. -/
def setTimeout (callback : Callback) (delay : Nat) (s : LoaderState) : LoaderState :=
  { s with timers := s.timers ++ [⟨s.now + delay, callback⟩] }

/-- The function `initLoader()`. -/
def initLoader (p : Performance) (s : LoaderState) : LoaderState :=
  let navigationType := navigationType p
  let shouldShowLoader := navigationType = "navigate" ∨ navigationType = "reload"
  if shouldShowLoader then
    setTimeout .breakLoader 5000 (mainAdd "visible" (mainRemove "hidden" s))
  else
    mainAdd "visible" (mainRemove "hidden" (loaderAdd "hidden" s))

/-- The bodies of the two timer callbacks (lines 29-34 and line 33). -/
def runCallback (callback : Callback) (s : LoaderState) : LoaderState :=
  match callback with
  | .breakLoader => setTimeout .hideLoader 1200 (loaderAdd "breaking" s)
  | .hideLoader => loaderAdd "hidden" s

/-- The pending timer that fires next: the earliest one, the first registered
among equals. -/
def nextTimer : List Timer → Option Timer
  | [] => none
  | t :: ts =>
    match nextTimer ts with
    | none => some t
    | some u => if u.fireAt < t.fireAt then some u else some t

/-- One turn of the event loop: advance the clock to the next timer, drop it
from the pending list and run its callback; `none` when nothing is pending. -/
def fireNext (s : LoaderState) : Option LoaderState :=
  match nextTimer s.timers with
  | none => none
  | some t =>
    some (runCallback t.callback
      { s with now := max s.now t.fireAt, timers := s.timers.erase t })

/-- Run the event loop for at most `fuel` turns, stopping early when no timer
is pending. -/
def runTimers : Nat → LoaderState → LoaderState
  | 0, s => s
  | fuel + 1, s =>
    match fireNext s with
    | none => s
    | some s1 => runTimers fuel s1

/-! ## Menu toggle (`initMenuToggle`, lines 234-257) -/

/-- The method `s.includes(sub)`: `sub` occurs in `s` as a contiguous block. -/
def jsIncludes (s sub : String) : Bool :=
  s.data.tails.any (fun t => sub.data.isPrefixOf t)

/-- The method `s.startsWith(p)`. -/
def jsStartsWith (s p : String) : Bool :=
  p.data.isPrefixOf s.data

/-- The click listener registered at line 243. -/
inductive MenuListener where
  | toggleActive
  deriving DecidableEq, Repr

/-- A `.menu-item` element: `href` is `getAttribute('href')` (`none` for
`null`), with its class list and registered click listeners. -/
structure MenuItem where
  href : Option String
  classList : List String
  listeners : List MenuListener

/-- The condition at line 241:
`href && !href.includes('.html') && !href.startsWith('http')`. -/
def isAnchorHref (href : Option String) : Bool :=
  match href with
  | none => false
  | some h => h ≠ "" && !jsIncludes h ".html" && !jsStartsWith h "http"

/-- The callback passed to `forEach` (lines 237-256) applied to one item.  The
`else` branch computes `currentPage` and changes nothing. -/
def initMenuItem (item : MenuItem) : MenuItem :=
  if isAnchorHref item.href then
    { item with listeners := item.listeners ++ [.toggleActive] }
  else
    item

/-- The function `initMenuToggle()` on the node list `menuItems`. -/
def initMenuToggle (menuItems : List MenuItem) : List MenuItem :=
  menuItems.map initMenuItem

/-- A click event in flight on a menu item. -/
structure MenuClick where
  item : MenuItem
  defaultPrevented : Bool

/-- The body of the listener (lines 244-245). -/
def runMenuListener (c : MenuClick) (l : MenuListener) : MenuClick :=
  match l with
  | .toggleActive =>
    { item := { c.item with classList := classToggle "active" c.item.classList }
      defaultPrevented := true }

/-- Dispatch of one click on `item`: its listeners run in registration order. -/
def clickMenuItem (item : MenuItem) : MenuClick :=
  item.listeners.foldl runMenuListener { item := item, defaultPrevented := false }

/-! ## Theme toggle (`initThemeToggle`, lines 260-282) -/

/-- The object `localStorage`: a map from keys to stored strings. -/
def Storage : Type := String → Option String

/-- The method `localStorage.getItem(key)`. -/
def Storage.getItem (st : Storage) (key : String) : Option String := st key

/-- The method `localStorage.setItem(key, value)`. -/
def Storage.setItem (st : Storage) (key value : String) : Storage :=
  fun k => if k = key then some value else st k

/-- The click listener registered at line 272. -/
inductive ThemeListener where
  | toggleTheme
  deriving DecidableEq, Repr

/-- The page state seen by the theme toggle: whether `#theme-toggle-btn`
exists, the class list of `body`, `localStorage`, and the click listeners
registered on the button. -/
structure ThemePage where
  hasThemeToggleBtn : Bool
  bodyClasses : List String
  localStorage : Storage
  listeners : List ThemeListener

/-- The function `initThemeToggle()`. -/
def initThemeToggle (p : ThemePage) : ThemePage :=
  if !p.hasThemeToggleBtn then p
  else
    let savedTheme := p.localStorage.getItem "theme"
    let p1 :=
      if savedTheme = some "dark" then
        { p with bodyClasses := classAdd "dark-theme" p.bodyClasses }
      else p
    { p1 with listeners := p1.listeners ++ [.toggleTheme] }

/-- The body of the listener (lines 273-280). -/
def runThemeListener (p : ThemePage) (l : ThemeListener) : ThemePage :=
  match l with
  | .toggleTheme =>
    let p1 := { p with bodyClasses := classToggle "dark-theme" p.bodyClasses }
    if "dark-theme" ∈ p1.bodyClasses then
      { p1 with localStorage := p1.localStorage.setItem "theme" "dark" }
    else
      { p1 with localStorage := p1.localStorage.setItem "theme" "light" }

/-- Dispatch of one click on the theme button: its listeners run in
registration order. -/
def clickThemeToggle (p : ThemePage) : ThemePage :=
  p.listeners.foldl runThemeListener p

/-! ## Lemmas on the curve generator -/

section CurveLemmas

variable {α : Type} [Field α]

theorem spiralLoop_eq (M : JsMath α) (offset noiseOffset : α) (k i : Nat)
    (points : List (Vector3 α)) (hk : i + k = segments + 1) :
    spiralLoop M offset noiseOffset i points =
      points ++ (List.range' i k).map (spiralPoint M offset noiseOffset) := by
  induction k generalizing i points with
  | zero =>
    unfold spiralLoop
    have : ¬ i ≤ segments := by omega
    simp [this]
  | succ k ih =>
    unfold spiralLoop
    have : i ≤ segments := by omega
    rw [if_pos this, ih (i + 1) _ (by omega)]
    simp [List.range'_succ]

theorem createAbstractSpiralPoints_eq (M : JsMath α) (offset noiseOffset : α) :
    createAbstractSpiralPoints M offset noiseOffset =
      (List.range (segments + 1)).map (spiralPoint M offset noiseOffset) := by
  unfold createAbstractSpiralPoints
  rw [spiralLoop_eq M offset noiseOffset (segments + 1) 0 [] (by omega)]
  simp [List.range_eq_range']

theorem createAbstractSpiralPoints_getElem? (M : JsMath α) (offset noiseOffset : α)
    (i : Nat) (hi : i ≤ segments) :
    (createAbstractSpiralPoints M offset noiseOffset)[i]? =
      some (spiralPoint M offset noiseOffset i) := by
  rw [createAbstractSpiralPoints_eq]
  have : i < segments + 1 := by omega
  simp [List.getElem?_map, List.getElem?_range this]

theorem strandLoop_eq (M : JsMath α) (k j : Nat) (group : List (Strand α))
    (hk : j + k = 15) :
    strandLoop M j group = group ++ (List.range' j k).map (buildStrand M) := by
  induction k generalizing j group with
  | zero =>
    unfold strandLoop
    have : ¬ j < 15 := by omega
    simp [this]
  | succ k ih =>
    unfold strandLoop
    have : j < 15 := by omega
    rw [if_pos this, ih (j + 1) _ (by omega)]
    simp [List.range'_succ]

theorem initSpiralStrands_eq (M : JsMath α) :
    initSpiralStrands M = (List.range 15).map (buildStrand M) := by
  unfold initSpiralStrands
  rw [strandLoop_eq M 15 0 [] (by omega)]
  simp [List.range_eq_range']

theorem initSpiralStrands_getElem? (M : JsMath α) (j : Nat) (hj : j < 15) :
    (initSpiralStrands M)[j]? = some (buildStrand M j) := by
  rw [initSpiralStrands_eq]
  simp [List.getElem?_map, List.getElem?_range hj]

end CurveLemmas

/-! ## Claims on the curve generator and the scene assembler -/

section CurveClaims

/-- The value of `y` at step 0 over the reals. -/
theorem spiralPoint_zero_y (offset noiseOffset : ℝ) :
    (spiralPoint (JsMath.mk Real.sin Real.cos Real.rpow Real.pi) offset noiseOffset 0).y =
      -3 + 0.08 * Real.sin noiseOffset := by
  simp only [spiralPoint, flowerOpen, height, segments]
  have h : Real.rpow 0 0.7 = 0 := Real.zero_rpow (by norm_num)
  simp only [Nat.cast_zero, zero_div, zero_mul, zero_add, h, Real.sin_zero, mul_zero,
    add_zero, sub_zero, mul_one]
  ring

/-- The value of `y` at step `segments` over the reals. -/
theorem spiralPoint_last_y (offset noiseOffset : ℝ) :
    (spiralPoint (JsMath.mk Real.sin Real.cos Real.rpow Real.pi) offset noiseOffset 500).y =
      3 := by
  simp only [spiralPoint, flowerOpen, height, segments]
  have h : Real.rpow 1 0.7 = 1 := Real.one_rpow _
  have ht : ((500 : ℕ) : ℝ) / ((500 : ℕ) : ℝ) = 1 := by norm_num
  simp only [ht, h, one_mul, Real.sin_pi, sub_self, mul_zero, zero_mul, add_zero, mul_one]
  norm_num

/-- C1 (as the code has it): over the reals, for every `offset` and
`noiseOffset`, point 0 of `createAbstractSpiralPoints(offset, noiseOffset)` has
`y = -3 + 0.08 * sin(noiseOffset)` (the vertical noise term at `t = 0`), and
point 500 has `y = 3 = height / 2`. -/
theorem C1_endpoint_heights (offset noiseOffset : ℝ) :
    ((createAbstractSpiralPoints (JsMath.mk Real.sin Real.cos Real.rpow Real.pi)
        offset noiseOffset)[0]?).map Vector3.y = some (-3 + 0.08 * Real.sin noiseOffset) ∧
    ((createAbstractSpiralPoints (JsMath.mk Real.sin Real.cos Real.rpow Real.pi)
        offset noiseOffset)[500]?).map Vector3.y = some 3 := by
  constructor
  · rw [createAbstractSpiralPoints_getElem? _ _ _ 0 (by decide)]
    simp [spiralPoint_zero_y]
  · rw [createAbstractSpiralPoints_getElem? _ _ _ 500 (by decide)]
    simp [spiralPoint_last_y]

/-- C1 as stated fails: for strand 1 of the page (`offset = -0.24`,
`noiseOffset = 0.6`) point 0 does not have `y = -3`. -/
theorem C1_first_point_not_minus_three :
    ((createAbstractSpiralPoints (JsMath.mk Real.sin Real.cos Real.rpow Real.pi)
        (-0.24) 0.6)[0]?).map Vector3.y ≠ some (-3 : ℝ) := by
  rw [createAbstractSpiralPoints_getElem? _ _ _ 0 (by decide)]
  simp only [Option.map_some', spiralPoint_zero_y, ne_eq, Option.some.injEq]
  have hpos : 0 < Real.sin 0.6 :=
    Real.sin_pos_of_pos_of_lt_pi (by norm_num) (by linarith [Real.pi_gt_three])
  intro h
  linarith

/-- C7: over the reals the radius envelope
`radiusExpansion(t) = 0.3 + (2.5 - 0.3) * t^0.7` is non-decreasing on `[0, 1]`. -/
theorem C7_radiusExpansion_monotone (t1 t2 : ℝ) (h0 : 0 ≤ t1) (h12 : t1 ≤ t2)
    (_h1 : t2 ≤ 1) :
    radiusExpansion (JsMath.mk Real.sin Real.cos Real.rpow Real.pi) t1 ≤
      radiusExpansion (JsMath.mk Real.sin Real.cos Real.rpow Real.pi) t2 := by
  simp only [radiusExpansion, flowerOpen, baseRadius, maxRadius]
  have h : Real.rpow t1 0.7 ≤ Real.rpow t2 0.7 :=
    Real.rpow_le_rpow h0 h12 (by norm_num)
  have hc : (0 : ℝ) ≤ 2.5 - 0.3 := by norm_num
  have := mul_le_mul_of_nonneg_left h hc
  linarith

/-- Witness for C7 at the sample steps `t = 100/500` and `t = 500/500`. -/
theorem C7_radiusExpansion_monotone_witness :
    radiusExpansion (JsMath.mk Real.sin Real.cos Real.rpow Real.pi) (100 / 500) ≤
      radiusExpansion (JsMath.mk Real.sin Real.cos Real.rpow Real.pi) (500 / 500) :=
  C7_radiusExpansion_monotone (100 / 500) (500 / 500) (by norm_num) (by norm_num)
    (by norm_num)

/-- C8: for every `offset` and `noiseOffset` (over any field and any `Math`),
`createAbstractSpiralPoints` returns exactly `segments + 1 = 501` points, and
its `i`-th element, `0 ≤ i ≤ 500`, is the point computed at step `i`. -/
theorem C8_point_count_and_order {α : Type} [Field α] (M : JsMath α)
    (offset noiseOffset : α) :
    (createAbstractSpiralPoints M offset noiseOffset).length = 501 ∧
    ∀ i : Nat, i ≤ 500 →
      (createAbstractSpiralPoints M offset noiseOffset)[i]? =
        some (spiralPoint M offset noiseOffset i) := by
  constructor
  · rw [createAbstractSpiralPoints_eq]
    simp [segments]
  · intro i hi
    exact createAbstractSpiralPoints_getElem? M offset noiseOffset i hi

/-- Witness for C8: element 250 of the strand with `offset = 0`,
`noiseOffset = 0` over the reals. -/
theorem C8_point_count_and_order_witness :
    (createAbstractSpiralPoints (JsMath.mk Real.sin Real.cos Real.rpow Real.pi)
        0 0)[250]? =
      some (spiralPoint (JsMath.mk Real.sin Real.cos Real.rpow Real.pi) 0 0 250) :=
  (C8_point_count_and_order (JsMath.mk Real.sin Real.cos Real.rpow Real.pi) 0 0).2 250
    (by decide)

/-- C2 (as the code has it): for every strand index `j < 15`, the call at
line 94 receives `offset = (j - 7) * 0.04` and `noiseOffset = j * 0.6`. -/
theorem C2_strand_parameters (j : Nat) (hj : j < 15) :
    ((initSpiralStrands (JsMath.mk Real.sin Real.cos Real.rpow Real.pi))[j]?).map
        Strand.offset = some (((j : ℝ) - 7) * 0.04) ∧
    ((initSpiralStrands (JsMath.mk Real.sin Real.cos Real.rpow Real.pi))[j]?).map
        Strand.noiseOffset = some ((j : ℝ) * 0.6) ∧
    ((initSpiralStrands (JsMath.mk Real.sin Real.cos Real.rpow Real.pi))[j]?).map
        Strand.controlPoints =
      some (createAbstractSpiralPoints (JsMath.mk Real.sin Real.cos Real.rpow Real.pi)
        (((j : ℝ) - 7) * 0.04) ((j : ℝ) * 0.6)) := by
  rw [initSpiralStrands_getElem? _ j hj]
  simp [buildStrand]

/-- Witness for C2 at strand `j = 14`. -/
theorem C2_strand_parameters_witness :
    ((initSpiralStrands (JsMath.mk Real.sin Real.cos Real.rpow Real.pi))[14]?).map
        Strand.offset = some ((((14 : ℕ) : ℝ) - 7) * 0.04) :=
  (C2_strand_parameters 14 (by decide)).1

/-- C2 as stated fails: for strand `j = 0` the offset passed is not
`(0 - 15 / 2) * 0.04`. -/
theorem C2_offset_not_half_count :
    ((initSpiralStrands (JsMath.mk Real.sin Real.cos Real.rpow Real.pi))[0]?).map
        Strand.offset ≠ some ((((0 : ℕ) : ℝ) - 15 / 2) * 0.04) := by
  rw [initSpiralStrands_getElem? _ 0 (by decide)]
  simp only [Option.map_some', buildStrand, ne_eq, Option.some.injEq]
  norm_num

end CurveClaims

/-! ## Claims on the pointer tracker and the animation loop -/

section AnimationClaims

theorem animate_of_spiral {α : Type} [Field α] (s : SpiralState α) (r : Rotation α)
    (hs : s.spiral = some r) :
    (animate s).spiral = some (rotateSpiral s.targetRotationX s.targetRotationY r) ∧
    (animate s).targetRotationX = s.targetRotationX ∧
    (animate s).targetRotationY = s.targetRotationY := by
  unfold animate
  simp only [hs]
  split_ifs <;> simp

theorem animate_iterate {α : Type} [Field α] (s : SpiralState α) (r : Rotation α)
    (hs : s.spiral = some r) (n : Nat) :
    (animate^[n] s).spiral =
        some ((rotateSpiral s.targetRotationX s.targetRotationY)^[n] r) ∧
    (animate^[n] s).targetRotationX = s.targetRotationX ∧
    (animate^[n] s).targetRotationY = s.targetRotationY := by
  induction n with
  | zero => simp [hs]
  | succ n ih =>
    obtain ⟨h1, h2, h3⟩ := ih
    have h := animate_of_spiral (animate^[n] s) _ h1
    rw [Function.iterate_succ_apply', Function.iterate_succ_apply']
    rw [h2, h3] at h
    exact h

theorem rotateSpiral_iterate (tx ty : ℝ) (r : Rotation ℝ) (n : Nat) :
    tx - ((rotateSpiral tx ty)^[n] r).x = 0.95 ^ n * (tx - r.x) ∧
    ty - ((rotateSpiral tx ty)^[n] r).z = 0.95 ^ n * (ty - r.z) ∧
    ((rotateSpiral tx ty)^[n] r).y = r.y + n * 0.003 := by
  induction n with
  | zero => simp
  | succ n ih =>
    obtain ⟨h1, h2, h3⟩ := ih
    rw [Function.iterate_succ_apply']
    simp only [rotateSpiral, pow_succ, Nat.cast_succ]
    refine ⟨?_, ?_, ?_⟩
    · linear_combination 0.95 * h1
    · linear_combination 0.95 * h2
    · linear_combination h3

/-- C3: over the reals, for every viewport with `W > 0` and `H > 0`,
`onMouseMove` at `(0, 0)` sets `targetRotationY = -0.08` and
`targetRotationX = 0.08`, and at `(W, H)` sets `targetRotationY = 0.08` and
`targetRotationX = -0.08`. -/
theorem C3_pointer_normalization (W H : ℝ) (hW : 0 < W) (hH : 0 < H)
    (s : SpiralState ℝ) :
    (onMouseMove ⟨W, H⟩ ⟨0, 0⟩ s).targetRotationY = -0.08 ∧
    (onMouseMove ⟨W, H⟩ ⟨0, 0⟩ s).targetRotationX = 0.08 ∧
    (onMouseMove ⟨W, H⟩ ⟨W, H⟩ s).targetRotationY = 0.08 ∧
    (onMouseMove ⟨W, H⟩ ⟨W, H⟩ s).targetRotationX = -0.08 := by
  have hW0 : W ≠ 0 := ne_of_gt hW
  have hH0 : H ≠ 0 := ne_of_gt hH
  simp only [onMouseMove, zero_div, div_self hW0, div_self hH0]
  norm_num

/-- Witness for C3: a 1920 by 1080 viewport and the state at page load. -/
theorem C3_pointer_normalization_witness :
    (onMouseMove (⟨1920, 1080⟩ : Window ℝ) ⟨0, 0⟩
        ⟨none, 0, 0, 0, 0, false, 0, 0⟩).targetRotationY = -0.08 ∧
    (onMouseMove (⟨1920, 1080⟩ : Window ℝ) ⟨0, 0⟩
        ⟨none, 0, 0, 0, 0, false, 0, 0⟩).targetRotationX = 0.08 ∧
    (onMouseMove (⟨1920, 1080⟩ : Window ℝ) ⟨1920, 1080⟩
        ⟨none, 0, 0, 0, 0, false, 0, 0⟩).targetRotationY = 0.08 ∧
    (onMouseMove (⟨1920, 1080⟩ : Window ℝ) ⟨1920, 1080⟩
        ⟨none, 0, 0, 0, 0, false, 0, 0⟩).targetRotationX = -0.08 :=
  C3_pointer_normalization 1920 1080 (by norm_num) (by norm_num)
    ⟨none, 0, 0, 0, 0, false, 0, 0⟩

/-- C4: over the reals, in a state where the spiral exists and
`rotation.x = targetRotationX`, `rotation.z = targetRotationY`, one call of
`animate` leaves `rotation.x` and `rotation.z` unchanged, adds exactly `0.003`
to `rotation.y`, and leaves both targets unchanged. -/
theorem C4_tick_at_target (s : SpiralState ℝ) (r : Rotation ℝ)
    (hs : s.spiral = some r) (hx : r.x = s.targetRotationX)
    (hz : r.z = s.targetRotationY) :
    ∃ r1 : Rotation ℝ, (animate s).spiral = some r1 ∧
      r1.x = r.x ∧ r1.z = r.z ∧ r1.y = r.y + 0.003 ∧
      (animate s).targetRotationX = s.targetRotationX ∧
      (animate s).targetRotationY = s.targetRotationY := by
  obtain ⟨h1, h2, h3⟩ := animate_of_spiral s r hs
  refine ⟨_, h1, ?_, ?_, ?_, h2, h3⟩
  · simp [rotateSpiral, hx]
  · simp [rotateSpiral, hz]
  · simp [rotateSpiral]

/-- Witness for C4: rotation `(0.02, 1, -0.04)` with targets `0.02`, `-0.04`. -/
theorem C4_tick_at_target_witness :
    ∃ r1 : Rotation ℝ,
      (animate (⟨some ⟨0.02, 1, -0.04⟩, 0, 0, 0.02, -0.04, true, 0, 0⟩ :
        SpiralState ℝ)).spiral = some r1 ∧
      r1.x = 0.02 ∧ r1.z = -0.04 ∧ r1.y = 1 + 0.003 ∧
      (animate (⟨some ⟨0.02, 1, -0.04⟩, 0, 0, 0.02, -0.04, true, 0, 0⟩ :
        SpiralState ℝ)).targetRotationX = 0.02 ∧
      (animate (⟨some ⟨0.02, 1, -0.04⟩, 0, 0, 0.02, -0.04, true, 0, 0⟩ :
        SpiralState ℝ)).targetRotationY = -0.04 :=
  C4_tick_at_target ⟨some ⟨0.02, 1, -0.04⟩, 0, 0, 0.02, -0.04, true, 0, 0⟩
    ⟨0.02, 1, -0.04⟩ rfl rfl rfl

/-- C10: over the reals, in a state where the spiral exists, one call of
`animate` multiplies the gap between `targetRotationX` and `rotation.x`, and
the gap between `targetRotationY` and `rotation.z`, by `0.95`, and adds
`0.003` to `rotation.y` whatever the targets are; after `n` calls (the targets
are not touched by `animate`) the gaps are `0.95^n` times the initial ones,
never larger in absolute value, and `rotation.y` has grown by `n * 0.003`. -/
theorem C10_eased_rotation (s : SpiralState ℝ) (r : Rotation ℝ)
    (hs : s.spiral = some r) :
    (∃ r1 : Rotation ℝ, (animate s).spiral = some r1 ∧
      s.targetRotationX - r1.x = 0.95 * (s.targetRotationX - r.x) ∧
      s.targetRotationY - r1.z = 0.95 * (s.targetRotationY - r.z) ∧
      r1.y = r.y + 0.003) ∧
    ∀ n : Nat, ∃ rn : Rotation ℝ, (animate^[n] s).spiral = some rn ∧
      (animate^[n] s).targetRotationX = s.targetRotationX ∧
      (animate^[n] s).targetRotationY = s.targetRotationY ∧
      s.targetRotationX - rn.x = 0.95 ^ n * (s.targetRotationX - r.x) ∧
      s.targetRotationY - rn.z = 0.95 ^ n * (s.targetRotationY - r.z) ∧
      |s.targetRotationX - rn.x| ≤ |s.targetRotationX - r.x| ∧
      |s.targetRotationY - rn.z| ≤ |s.targetRotationY - r.z| ∧
      rn.y = r.y + n * 0.003 := by
  constructor
  · obtain ⟨h1, -, -⟩ := animate_of_spiral s r hs
    refine ⟨_, h1, ?_, ?_, ?_⟩
    · simp only [rotateSpiral]; ring
    · simp only [rotateSpiral]; ring
    · simp only [rotateSpiral]
  · intro n
    obtain ⟨h1, h2, h3⟩ := animate_iterate s r hs n
    obtain ⟨g1, g2, g3⟩ :=
      rotateSpiral_iterate s.targetRotationX s.targetRotationY r n
    have hp0 : (0 : ℝ) ≤ 0.95 ^ n := by positivity
    have hp1 : (0.95 : ℝ) ^ n ≤ 1 := pow_le_one₀ (by norm_num) (by norm_num)
    refine ⟨_, h1, h2, h3, g1, g2, ?_, ?_, g3⟩
    · rw [g1, abs_mul, abs_of_nonneg hp0]
      exact mul_le_of_le_one_left (abs_nonneg _) hp1
    · rw [g2, abs_mul, abs_of_nonneg hp0]
      exact mul_le_of_le_one_left (abs_nonneg _) hp1

/-- Witness for C10: the state right after `initSpiral` (rotation
`(1, 1, 0)`) with targets `0.08`, `-0.08`, after one call of `animate`. -/
theorem C10_eased_rotation_witness :
    ∃ r1 : Rotation ℝ,
      (animate (⟨some ⟨1, 1, 0⟩, 0, 0, 0.08, -0.08, true, 0, 0⟩ :
        SpiralState ℝ)).spiral = some r1 ∧
      0.08 - r1.x = 0.95 * (0.08 - 1) ∧
      -0.08 - r1.z = 0.95 * (-0.08 - 0) ∧
      r1.y = 1 + 0.003 :=
  (C10_eased_rotation ⟨some ⟨1, 1, 0⟩, 0, 0, 0.08, -0.08, true, 0, 0⟩ ⟨1, 1, 0⟩ rfl).1

end AnimationClaims

/-! ## Class-list lemmas -/

section ClassLemmas

theorem mem_classAdd (c d : String) (l : List String) :
    d ∈ classAdd c l ↔ d = c ∨ d ∈ l := by
  unfold classAdd
  split_ifs with h
  · constructor
    · intro hd; exact Or.inr hd
    · rintro (rfl | hd)
      · exact h
      · exact hd
  · simp [or_comm]

theorem mem_classRemove (c d : String) (l : List String) :
    d ∈ classRemove c l ↔ d ≠ c ∧ d ∈ l := by
  simp [classRemove, List.mem_filter, and_comm]

theorem mem_classToggle_self (c : String) (l : List String) :
    c ∈ classToggle c l ↔ c ∉ l := by
  unfold classToggle
  split_ifs with h
  · simp [mem_classRemove, h]
  · simp [h]

theorem mem_classToggle_other (c d : String) (l : List String) (hd : d ≠ c) :
    d ∈ classToggle c l ↔ d ∈ l := by
  unfold classToggle
  split_ifs with h
  · simp [mem_classRemove, hd]
  · simp [hd]

end ClassLemmas

/-! ## Claims on the theme toggle -/

section ThemeClaims

theorem clickThemeToggle_single (p : ThemePage) (hl : p.listeners = [.toggleTheme]) :
    (clickThemeToggle p).listeners = [.toggleTheme] ∧
    (clickThemeToggle p).bodyClasses = classToggle "dark-theme" p.bodyClasses ∧
    (clickThemeToggle p).localStorage.getItem "theme" =
      some (if "dark-theme" ∈ p.bodyClasses then "light" else "dark") := by
  unfold clickThemeToggle
  rw [hl]
  simp only [List.foldl_cons, List.foldl_nil, runThemeListener]
  by_cases h : "dark-theme" ∈ p.bodyClasses
  · have h1 : "dark-theme" ∉ classToggle "dark-theme" p.bodyClasses := by
      rw [mem_classToggle_self]; exact not_not.mpr h
    simp [h, h1, hl, Storage.getItem, Storage.setItem]
  · have h1 : "dark-theme" ∈ classToggle "dark-theme" p.bodyClasses := by
      rw [mem_classToggle_self]; exact h
    simp [h, h1, hl, Storage.getItem, Storage.setItem]

theorem initThemeToggle_fresh (p : ThemePage) (hbtn : p.hasThemeToggleBtn = true)
    (hstore : p.localStorage.getItem "theme" = none) (hl : p.listeners = []) :
    (initThemeToggle p).listeners = [.toggleTheme] ∧
    (initThemeToggle p).bodyClasses = p.bodyClasses := by
  unfold initThemeToggle
  simp [hbtn, hstore, hl]

/-- C5: starting with a theme button, no stored `theme` value, no
`dark-theme` class on `body` and no listener yet, after `initThemeToggle` the
first click stores `"dark"` and puts `dark-theme` on `body`; the second click
stores `"light"` and takes `dark-theme` off. -/
theorem C5_theme_toggle (p : ThemePage) (hbtn : p.hasThemeToggleBtn = true)
    (hstore : p.localStorage.getItem "theme" = none)
    (hbody : "dark-theme" ∉ p.bodyClasses) (hl : p.listeners = []) :
    (clickThemeToggle (initThemeToggle p)).localStorage.getItem "theme" = some "dark" ∧
    "dark-theme" ∈ (clickThemeToggle (initThemeToggle p)).bodyClasses ∧
    (clickThemeToggle (clickThemeToggle (initThemeToggle p))).localStorage.getItem "theme" =
      some "light" ∧
    "dark-theme" ∉ (clickThemeToggle (clickThemeToggle (initThemeToggle p))).bodyClasses := by
  obtain ⟨i1, i2⟩ := initThemeToggle_fresh p hbtn hstore hl
  obtain ⟨a1, a2, a3⟩ := clickThemeToggle_single (initThemeToggle p) i1
  obtain ⟨-, b2, b3⟩ := clickThemeToggle_single (clickThemeToggle (initThemeToggle p)) a1
  have hin : "dark-theme" ∈ (clickThemeToggle (initThemeToggle p)).bodyClasses := by
    rw [a2, mem_classToggle_self, i2]; exact hbody
  refine ⟨?_, hin, ?_, ?_⟩
  · rw [a3, i2, if_neg hbody]
  · rw [b3, if_pos hin]
  · rw [b2, mem_classToggle_self]; exact not_not.mpr hin

/-- Witness for C5: a page with the button, `body` carrying only the class
`home`, and an empty `localStorage`. -/
theorem C5_theme_toggle_witness :
    (clickThemeToggle (initThemeToggle
        ⟨true, ["home"], fun _ => none, []⟩)).localStorage.getItem "theme" = some "dark" ∧
    "dark-theme" ∈ (clickThemeToggle (initThemeToggle
        ⟨true, ["home"], fun _ => none, []⟩)).bodyClasses ∧
    (clickThemeToggle (clickThemeToggle (initThemeToggle
        ⟨true, ["home"], fun _ => none, []⟩))).localStorage.getItem "theme" =
      some "light" ∧
    "dark-theme" ∉ (clickThemeToggle (clickThemeToggle (initThemeToggle
        ⟨true, ["home"], fun _ => none, []⟩))).bodyClasses :=
  C5_theme_toggle ⟨true, ["home"], fun _ => none, []⟩ rfl rfl (by decide) rfl

end ThemeClaims

/-! ## Claims on the loader -/

section LoaderClaims

theorem runTimers_idle (fuel : Nat) (s : LoaderState) (h : s.timers = []) :
    runTimers fuel s = s := by
  cases fuel with
  | zero => rfl
  | succ k => simp [runTimers, fireNext, nextTimer, h]

theorem initLoader_navigate (p : Performance) (hnav : navigationType p = "navigate")
    (loaderClasses mainClasses : List String) :
    initLoader p (LoaderState.initial loaderClasses mainClasses) =
      { now := 0
        loaderClasses := loaderClasses
        mainClasses := classAdd "visible" (classRemove "hidden" mainClasses)
        timers := [⟨5000, .breakLoader⟩]
        log := [⟨0, .mainContent, .remove, "hidden"⟩, ⟨0, .mainContent, .add, "visible"⟩] } := by
  simp [initLoader, hnav, LoaderState.initial, setTimeout, mainAdd, mainRemove]

theorem runTimers_one_navigate (loaderClasses mainClasses : List String)
    (log : List ClassChange) :
    runTimers 1
        { now := 0, loaderClasses := loaderClasses, mainClasses := mainClasses,
          timers := [⟨5000, .breakLoader⟩], log := log } =
      { now := 5000
        loaderClasses := classAdd "breaking" loaderClasses
        mainClasses := mainClasses
        timers := [⟨6200, .hideLoader⟩]
        log := log ++ [⟨5000, .loader, .add, "breaking"⟩] } := by
  simp [runTimers, fireNext, nextTimer, runCallback, setTimeout, loaderAdd]

theorem runTimers_two_navigate (k : Nat) (loaderClasses mainClasses : List String)
    (log : List ClassChange) :
    runTimers (k + 2)
        { now := 0, loaderClasses := loaderClasses, mainClasses := mainClasses,
          timers := [⟨5000, .breakLoader⟩], log := log } =
      { now := 6200
        loaderClasses := classAdd "hidden" (classAdd "breaking" loaderClasses)
        mainClasses := mainClasses
        timers := []
        log := log ++ [⟨5000, .loader, .add, "breaking"⟩, ⟨6200, .loader, .add, "hidden"⟩] } := by
  have h : runTimers (k + 2)
        { now := 0, loaderClasses := loaderClasses, mainClasses := mainClasses,
          timers := [⟨5000, .breakLoader⟩], log := log } =
      runTimers k
        { now := 6200
          loaderClasses := classAdd "hidden" (classAdd "breaking" loaderClasses)
          mainClasses := mainClasses
          timers := []
          log := log ++ [⟨5000, .loader, .add, "breaking"⟩,
            ⟨6200, .loader, .add, "hidden"⟩] } := by
    simp [runTimers, fireNext, nextTimer, runCallback, setTimeout, loaderAdd]
  rw [h, runTimers_idle _ _ rfl]

/-- C6: with timers as a schedule of (absolute time, callback) pairs and the
navigation type `"navigate"`, `initLoader` at time 0 removes `hidden` from and
adds `visible` to the main content and leaves the loader alone; the first
timer fires at 5000 ms and adds `breaking` to the loader; the second fires at
6200 ms and adds `hidden` to the loader; after that nothing is pending.  The
record of class-list calls is exactly these four, so no call adds `hidden` to
the loader before 6200 ms. -/
theorem C6_loader_schedule (p : Performance) (hnav : navigationType p = "navigate")
    (loaderClasses mainClasses : List String) :
    (initLoader p (LoaderState.initial loaderClasses mainClasses)).now = 0 ∧
    (initLoader p (LoaderState.initial loaderClasses mainClasses)).log =
      [⟨0, .mainContent, .remove, "hidden"⟩, ⟨0, .mainContent, .add, "visible"⟩] ∧
    (initLoader p (LoaderState.initial loaderClasses mainClasses)).loaderClasses =
      loaderClasses ∧
    "hidden" ∉ (initLoader p (LoaderState.initial loaderClasses mainClasses)).mainClasses ∧
    "visible" ∈ (initLoader p (LoaderState.initial loaderClasses mainClasses)).mainClasses ∧
    (runTimers 1 (initLoader p (LoaderState.initial loaderClasses mainClasses))).now = 5000 ∧
    (runTimers 1 (initLoader p (LoaderState.initial loaderClasses mainClasses))).log =
      [⟨0, .mainContent, .remove, "hidden"⟩, ⟨0, .mainContent, .add, "visible"⟩,
        ⟨5000, .loader, .add, "breaking"⟩] ∧
    (runTimers 1 (initLoader p (LoaderState.initial loaderClasses mainClasses))).loaderClasses =
      classAdd "breaking" loaderClasses ∧
    ∀ fuel : Nat, 2 ≤ fuel →
      (runTimers fuel (initLoader p (LoaderState.initial loaderClasses mainClasses))).now =
        6200 ∧
      (runTimers fuel (initLoader p (LoaderState.initial loaderClasses mainClasses))).log =
        [⟨0, .mainContent, .remove, "hidden"⟩, ⟨0, .mainContent, .add, "visible"⟩,
          ⟨5000, .loader, .add, "breaking"⟩, ⟨6200, .loader, .add, "hidden"⟩] ∧
      (runTimers fuel
          (initLoader p (LoaderState.initial loaderClasses mainClasses))).loaderClasses =
        classAdd "hidden" (classAdd "breaking" loaderClasses) ∧
      (runTimers fuel (initLoader p (LoaderState.initial loaderClasses mainClasses))).timers =
        [] ∧
      ∀ c ∈ (runTimers fuel
          (initLoader p (LoaderState.initial loaderClasses mainClasses))).log,
        c.elem = .loader → c.cls = "hidden" → c.time = 6200 := by
  rw [initLoader_navigate p hnav]
  refine ⟨rfl, rfl, rfl, ?_, ?_, ?_, ?_, ?_, ?_⟩
  · simp [mem_classAdd, mem_classRemove]
  · simp [mem_classAdd]
  · rw [runTimers_one_navigate]
  · rw [runTimers_one_navigate]; rfl
  · rw [runTimers_one_navigate]
  · intro fuel hfuel
    obtain ⟨k, rfl⟩ : ∃ k, fuel = k + 2 := ⟨fuel - 2, by omega⟩
    rw [runTimers_two_navigate]
    refine ⟨rfl, rfl, rfl, rfl, ?_⟩
    intro c hc he hcls
    simp only [List.cons_append, List.nil_append, List.mem_cons, List.mem_singleton,
      List.not_mem_nil, or_false] at hc
    rcases hc with rfl | rfl | rfl | rfl
    · cases he
    · cases he
    · exact absurd hcls (by decide)
    · rfl

/-- Witness for C6: a fresh navigation reported by the Navigation Timing
entry, loader with class `loader`, main content with class `hidden`. -/
theorem C6_loader_schedule_witness :
    (runTimers 2 (initLoader ⟨some "navigate", none⟩
        (LoaderState.initial ["loader"] ["hidden"]))).log =
      [⟨0, .mainContent, .remove, "hidden"⟩, ⟨0, .mainContent, .add, "visible"⟩,
        ⟨5000, .loader, .add, "breaking"⟩, ⟨6200, .loader, .add, "hidden"⟩] :=
  ((C6_loader_schedule ⟨some "navigate", none⟩ (by decide) ["loader"] ["hidden"]).2.2.2.2.2.2.2.2
    2 (le_refl 2)).2.1

end LoaderClaims

/-! ## Claims on the menu toggle -/

section MenuClaims

theorem jsIncludes_iff (s sub : String) :
    jsIncludes s sub = true ↔ ∃ pre post : List Char, s.data = pre ++ sub.data ++ post := by
  unfold jsIncludes
  rw [List.any_eq_true]
  constructor
  · rintro ⟨t, ht, hp⟩
    rw [List.mem_tails] at ht
    rw [ List.isPrefixOf_iff_prefix] at hp
    obtain ⟨pre, hpre⟩ := ht
    obtain ⟨post, hpost⟩ := hp
    exact ⟨pre, post, by rw [← hpre, ← hpost, List.append_assoc]⟩
  · rintro ⟨pre, post, h⟩
    refine ⟨sub.data ++ post, ?_, ?_⟩
    · rw [List.mem_tails]
      exact ⟨pre, by rw [h, List.append_assoc]⟩
    · rw [ List.isPrefixOf_iff_prefix]
      exact ⟨post, rfl⟩

theorem jsStartsWith_iff (s p : String) :
    jsStartsWith s p = true ↔ ∃ rest : List Char, s.data = p.data ++ rest := by
  unfold jsStartsWith
  rw [ List.isPrefixOf_iff_prefix]
  constructor
  · rintro ⟨rest, h⟩
    exact ⟨rest, h.symm⟩
  · rintro ⟨rest, h⟩
    exact ⟨rest, h.symm⟩

theorem isAnchorHref_iff (href : Option String) :
    isAnchorHref href = true ↔
      ∃ h : String, href = some h ∧ h ≠ "" ∧
        (¬ ∃ pre post : List Char, h.data = pre ++ ".html".data ++ post) ∧
        (¬ ∃ rest : List Char, h.data = "http".data ++ rest) := by
  cases href with
  | none => simp [isAnchorHref]
  | some h =>
    have hi := jsIncludes_iff h ".html"
    have hs := jsStartsWith_iff h "http"
    simp only [isAnchorHref, Bool.and_eq_true, Bool.not_eq_true', decide_eq_true_eq,
      Option.some.injEq, exists_eq_left', ← hi, ← hs, Bool.not_eq_true, and_assoc]

theorem initMenuToggle_getElem? (menuItems : List MenuItem) (i : Nat) :
    (initMenuToggle menuItems)[i]? = (menuItems[i]?).map initMenuItem := by
  simp [initMenuToggle, List.getElem?_map]

/-- C9: for every menu item (with no click listener before the call),
`initMenuToggle` registers the click listener exactly when the item's `href`
is present, non-empty, does not contain `.html` and does not start with
`http`.  With the listener a click sets `defaultPrevented` and flips the
presence of `active` in the class list, other classes untouched; without it a
click leaves `defaultPrevented` unset and the class list as it was. -/
theorem C9_menu_toggle (menuItems : List MenuItem) (i : Nat) (item : MenuItem)
    (hi : menuItems[i]? = some item) (hl : item.listeners = []) :
    ∃ item1 : MenuItem, (initMenuToggle menuItems)[i]? = some item1 ∧
      item1.href = item.href ∧ item1.classList = item.classList ∧
      ((∃ h : String, item.href = some h ∧ h ≠ "" ∧
          (¬ ∃ pre post : List Char, h.data = pre ++ ".html".data ++ post) ∧
          (¬ ∃ rest : List Char, h.data = "http".data ++ rest)) →
        item1.listeners = [.toggleActive] ∧
        (clickMenuItem item1).defaultPrevented = true ∧
        ("active" ∈ (clickMenuItem item1).item.classList ↔ "active" ∉ item.classList) ∧
        ∀ c : String, c ≠ "active" →
          (c ∈ (clickMenuItem item1).item.classList ↔ c ∈ item.classList)) ∧
      ((¬ ∃ h : String, item.href = some h ∧ h ≠ "" ∧
          (¬ ∃ pre post : List Char, h.data = pre ++ ".html".data ++ post) ∧
          (¬ ∃ rest : List Char, h.data = "http".data ++ rest)) →
        item1.listeners = [] ∧
        (clickMenuItem item1).defaultPrevented = false ∧
        (clickMenuItem item1).item.classList = item.classList) := by
  refine ⟨initMenuItem item, ?_, ?_, ?_, ?_, ?_⟩
  · rw [initMenuToggle_getElem?, hi]; rfl
  · unfold initMenuItem; split_ifs <;> rfl
  · unfold initMenuItem; split_ifs <;> rfl
  · intro hspec
    have ha : isAnchorHref item.href = true := (isAnchorHref_iff _).mpr hspec
    have h1 : initMenuItem item = { item with listeners := [.toggleActive] } := by
      simp [initMenuItem, ha, hl]
    rw [h1]
    refine ⟨rfl, ?_, ?_, ?_⟩
    · simp [clickMenuItem, runMenuListener]
    · simp [clickMenuItem, runMenuListener, mem_classToggle_self]
    · intro c hc
      simp [clickMenuItem, runMenuListener, mem_classToggle_other _ _ _ hc]
  · intro hspec
    have ha : isAnchorHref item.href = false := by
      rw [← Bool.not_eq_true, isAnchorHref_iff]; exact hspec
    have h1 : initMenuItem item = item := by
      simp [initMenuItem, ha]
    rw [h1]
    refine ⟨hl, ?_, ?_⟩
    · simp [clickMenuItem, hl]
    · simp [clickMenuItem, hl]

/-- Witness for C9: a menu with the anchor link `#about` and the page link
`work.html`; the first one gets the listener. -/
theorem C9_menu_toggle_witness :
    ∃ item1 : MenuItem,
      (initMenuToggle [⟨some "#about", ["menu-item"], []⟩,
        ⟨some "work.html", ["menu-item"], []⟩])[0]? = some item1 ∧
      item1.href = some "#about" ∧ item1.classList = ["menu-item"] ∧
      ((∃ h : String, some "#about" = some h ∧ h ≠ "" ∧
          (¬ ∃ pre post : List Char, h.data = pre ++ ".html".data ++ post) ∧
          (¬ ∃ rest : List Char, h.data = "http".data ++ rest)) →
        item1.listeners = [.toggleActive] ∧
        (clickMenuItem item1).defaultPrevented = true ∧
        ("active" ∈ (clickMenuItem item1).item.classList ↔ "active" ∉ ["menu-item"]) ∧
        ∀ c : String, c ≠ "active" →
          (c ∈ (clickMenuItem item1).item.classList ↔ c ∈ ["menu-item"])) ∧
      ((¬ ∃ h : String, some "#about" = some h ∧ h ≠ "" ∧
          (¬ ∃ pre post : List Char, h.data = pre ++ ".html".data ++ post) ∧
          (¬ ∃ rest : List Char, h.data = "http".data ++ rest)) →
        item1.listeners = [] ∧
        (clickMenuItem item1).defaultPrevented = false ∧
        (clickMenuItem item1).item.classList = ["menu-item"]) :=
  C9_menu_toggle [⟨some "#about", ["menu-item"], []⟩, ⟨some "work.html", ["menu-item"], []⟩]
    0 ⟨some "#about", ["menu-item"], []⟩ rfl rfl

end MenuClaims

end Script
